import Mathlib

/-!
Verification development for the CFGen / CellDreamer data-preparation and
conditioning pipeline.

The definitions below are a shallow embedding of the Python sources:
  * celldreamer/data/pert_loader.py   (PertDataset, SubPertDataset, subset)
  * cfgen/data/utils.py               (compute_size_factor_lognorm)
  * celldreamer/models/fm/denoising_model.py
        (zero_init, get_timestep_embedding, ResnetBlock)

Modelling conventions:
  * tensors are lists of rationals (exact arithmetic; torch floats are
    modelled exactly, NaN results of empty reductions are modelled by
    Option.none);
  * Python exceptions are modelled by the abstract error taxonomy of the
    specification (ConfigurationError, ParseError, LookupError,
    NumericError); fallible code returns Except;
  * external torch / numpy numeric primitives (sin, cos, log, sqrt,
    logspace, SiLU, LayerNorm/BatchNorm, Dropout) are out of scope per the
    specification and enter the model as explicit function parameters;
  * the helper module celldreamer/data/utils.py (functions indx and
    drug_names_to_once_canon_smiles) is not part of the provided sources;
    the places that depend on it are modelled from the spec and marked.
-/

/-- Error taxonomy of the specification (section 7).  The source raises
ValueError / AssertionError / KeyError / float() failures; the spec maps
them onto this taxonomy.  keyError models a Python KeyError / TypeError on
a missing dictionary entry that the spec taxonomy does not name. -/
inductive PertError where
  | configurationError
  | parseError
  | lookupError
  | numericError
  | keyError
  deriving DecidableEq, Repr

/-- Python str.split with a one-character separator, on the character list.
"".split(sep) gives [""], matching the [[]] base case. -/
def splitCharAux (sep : Char) : List Char → List (List Char)
  | [] => [[]]
  | c :: rest =>
    let r := splitCharAux sep rest
    if c = sep then [] :: r
    else
      match r with
      | [] => [[c]]
      | g :: gs => (c :: g) :: gs

/-- Model of the Python expression name.split("+") used throughout
pert_loader.py for combination perturbation strings. -/
def splitPlus (s : String) : List String :=
  (splitCharAux '+' s.data).map String.mk

/-- Lexicographic comparison of character lists by code point, the order
Python uses for sorting strings. -/
def charListLe : List Char → List Char → Bool
  | [], _ => true
  | _ :: _, [] => false
  | a :: as, b :: bs => if a = b then charListLe as bs else decide (a.val < b.val)

def strLe (s t : String) : Bool :=
  charListLe s.data t.data

def insertSortedStr (a : String) : List String → List String
  | [] => [a]
  | b :: bs => if strLe a b then a :: b :: bs else b :: insertSortedStr a bs

/-- Insertion sort on strings; models Python sorted(...) on strings. -/
def sortStrings : List String → List String
  | [] => []
  | a :: as => insertSortedStr a (sortStrings as)

/-- Model of sorted(set(xs)) / numpy.unique on string data: the sorted list
of distinct values. -/
def sortedUnique (l : List String) : List String :=
  sortStrings l.dedup

/-- Model of the dictionary {name: position} built by enumerating a list of
distinct names (PertDataset._drugs_name_to_idx): the position of the first
occurrence. -/
def idxOfStr (a : String) : List String → ℕ
  | [] => 0
  | b :: bs => if a = b then 0 else idxOfStr a bs + 1

/-- Value of a list of decimal digit characters, none if empty or not all
digits. -/
def digitsVal? (cs : List Char) : Option ℕ :=
  if cs ≠ [] ∧ cs.all Char.isDigit then
    some (cs.foldl (fun n c => 10 * n + (c.toNat - 48)) 0)
  else none

/-- Modelled from the spec: the dose strings are converted with the Python
float() builtin (an external primitive); the model covers the plain decimal
forms the datasets use ("1.0", "10", ...), and fails (ParseError per the
spec, section 4.2 step 3) on anything else. -/
def parseDose (s : String) : Option ℚ :=
  match splitCharAux '.' s.data with
  | [w] => (digitsVal? w).map (fun n => (n : ℚ))
  | [w, f] =>
    match digitsVal? w, digitsVal? f with
    | some a, some b => some ((a : ℚ) + (b : ℚ) / ((10 : ℚ) ^ f.length))
    | _, _ => none
  | _ => none

/-- Effectful map over Except, stopping at the first error, used to model
Python loops whose body can raise. -/
def mapExcept (f : α → Except PertError β) : List α → Except PertError (List β)
  | [] => .ok []
  | a :: as =>
    match f a with
    | .error e => .error e
    | .ok b =>
      match mapExcept f as with
      | .error e => .error e
      | .ok bs => .ok (b :: bs)

/-- Model of [float(dosage) for dosage in self.dose_names]
(pert_loader.py line 111); a non-numeric dose raises, ParseError in the
spec taxonomy. -/
def parseDoses (l : List String) : Except PertError (List ℚ) :=
  mapExcept (fun s =>
    match parseDose s with
    | some q => Except.ok q
    | none => Except.error PertError.parseError) l

/-- One-hot encoding of a value over a fixed sorted category list, the row
produced by the fitted sklearn OneHotEncoder in pert_loader.py
lines 142-156 (categories are the ascending unique values). -/
def oneHotOf (cats : List String) (v : String) : List ℚ :=
  cats.map (fun c => if c = v then (1 : ℚ) else 0)

/-- Source object consumed by PertDataset.__init__ (an AnnData): the
expression matrix, the var_names gene list, the obs metadata columns that
__init__ reads (already selected by their configured keys), and the uns
mapping of differentially-expressed-gene lists. -/
structure AnnSource where
  X : List (List ℚ)
  var_names : List String
  obs_pert : List String
  obs_dose : List String
  obs_smiles : List String
  obs_control : List ℕ
  obs_split : List String
  obs_pert_category : List String
  obs_cov : String → List String
  uns_degs : List (String × List String)

/-- The drug-name alias applied before differential-expression lookup
(pert_loader.py lines 205-206): the literal name JQ1 is remapped to its
alternate canonical name. -/
def aliasDrug (d : String) : String :=
  if d = "JQ1" then "(+)-JQ1" else d

/-- One iteration of the differential-expressed-genes loop of
PertDataset.__init__ (lines 199-217): alias the drug name, give control
rows an all-false mask, otherwise look up the composite key
cov_drug_1.0 in uns (a missing key is a Python KeyError, LookupError in
the spec taxonomy) and mark the genes of var_names contained in the
retrieved list. -/
def degMaskFor (de : List (String × List String)) (vn : List String)
    (cov drug : String) : Except PertError (List Bool) :=
  let drug2 := aliasDrug drug
  if drug2 = "control" then .ok (vn.map (fun _ => false))
  else
    match List.lookup (cov ++ "_" ++ drug2 ++ "_1.0") de with
    | none => .error .lookupError
    | some genes => .ok (vn.map (fun g => genes.contains g))

/-- The full differential-expressed-genes loop, over the per-observation
(drug name, cell_type value) pairs. -/
def buildDegs (de : List (String × List String)) (vn : List String) :
    List (String × String) → Except PertError (List (List Bool))
  | [] => .ok []
  | (drug, cov) :: rest =>
    match degMaskFor de vn cov drug with
    | .error e => .error e
    | .ok m =>
      match buildDegs de vn rest with
      | .error e => .error e
      | .ok ms => .ok (m :: ms)

/-- The sorted unique drug vocabulary (pert_loader.py lines 78-82): split
every perturbation string on +, union the tokens, sort. -/
def initVocab (drugs_names : List String) : List String :=
  sortedUnique ((drugs_names.map splitPlus).flatten)

/-- self.max_num_perturbations (lines 95-98): the maximum number of
+-separated tokens over the perturbation column. -/
def maxNumPerturbations (drugs_names : List String) : ℕ :=
  (drugs_names.map (fun s => (splitPlus s).length)).foldl max 0

/-- The covariate_names dictionary (line 139), one obs column per
configured covariate key. -/
def initCovNames (covariate_keys : List String) (src : AnnSource) :
    List (String × List String) :=
  covariate_keys.map (fun k => (k, src.obs_cov k))

/-- Modelled from the spec: drug_names_to_once_canon_smiles lives in
celldreamer/data/utils.py, which is absent from the provided sources.
Spec section 4.2 step 4: resolve each vocabulary drug to exactly one
canonical chemical-structure string via a lookup against per-observation
structure metadata; ConfigurationError if a drug maps to more than one
distinct structure or to none. -/
def resolveSmilesOne (obs_pert obs_smiles : List String) (d : String) :
    Except PertError String :=
  match (((obs_pert.zip obs_smiles).filter
      (fun p => (splitPlus p.1).contains d)).map Prod.snd).dedup with
  | [s] => Except.ok s
  | _ => Except.error PertError.configurationError

def resolveSmiles (vocab : List String) (obs_pert obs_smiles : List String) :
    Except PertError (List String) :=
  mapExcept (resolveSmilesOne obs_pert obs_smiles) vocab

/-- The columnar dataset built by PertDataset.__init__ (perturbation mode,
the only mode the provided pipeline can complete: with perturbation_key
None the degs loop of the source dereferences None and crashes).
self.indices is kept as its six entries (idx_all .. idx_ood). -/
structure PertDataset where
  genes : List (List ℚ)
  var_names : List String
  drugs_names : List String
  dose_names : List String
  pert_categories : List String
  drugs_names_unique_sorted : List String
  canon_smiles_unique_sorted : List String
  drugs_idx : List ℕ
  dosages : List ℚ
  covariate_keys : List String
  covariate_names : List (String × List String)
  covariate_names_unique : List (String × List String)
  covariates : List (List (List ℚ))
  ctrl : List ℕ
  ctrl_name : List String
  num_covariates : List ℕ
  num_genes : ℕ
  num_drugs : ℕ
  use_drugs_idx : Bool
  de_genes : List (String × List String)
  degs : List (List Bool)
  idx_all : List ℕ
  idx_control : List ℕ
  idx_treated : List ℕ
  idx_train : List ℕ
  idx_test : List ℕ
  idx_ood : List ℕ
  deriving DecidableEq, Repr

/-- PertDataset.__init__ (pert_loader.py lines 22-217) in perturbation
mode, following the statement order of the source: the missing dose_key
check, the vocabulary build, the smiles resolution, the
single-perturbation assertion (AssertionError in Python, ConfigurationError
in the spec taxonomy), drug-index and dosage extraction, the covariate
duplicate check and one-hot tables, the control fields, the split/condition
index sets, and finally the differential-expression masks.  AnnData
guarantees every obs column has exactly one entry per observation, so the
positional getD defaults below never fire on well-formed sources. -/
def PertDataset.init (src : AnnSource) (perturbation_key : String)
    (dose_key : Option String) (covariate_keys : List String)
    (use_drugs_idx : Bool) : Except PertError PertDataset :=
  match dose_key with
  | none => .error .configurationError
  | some _ =>
    match resolveSmiles (initVocab src.obs_pert) src.obs_pert src.obs_smiles with
    | .error e => .error e
    | .ok smiles =>
      if maxNumPerturbations src.obs_pert = 1 then
        match parseDoses src.obs_dose with
        | .error e => .error e
        | .ok dosages =>
          if covariate_keys.length ≠ covariate_keys.dedup.length then
            .error .configurationError
          else
            match List.lookup "cell_type" (initCovNames covariate_keys src) with
            | none => .error .keyError
            | some ct =>
              match buildDegs src.uns_degs src.var_names (src.obs_pert.zip ct) with
              | .error e => .error e
              | .ok degs =>
                .ok
                  { genes := src.X
                    var_names := src.var_names
                    drugs_names := src.obs_pert
                    dose_names := src.obs_dose
                    pert_categories := src.obs_pert_category
                    drugs_names_unique_sorted := initVocab src.obs_pert
                    canon_smiles_unique_sorted := smiles
                    drugs_idx :=
                      src.obs_pert.map (fun s => idxOfStr s (initVocab src.obs_pert))
                    dosages := dosages
                    covariate_keys := covariate_keys
                    covariate_names := initCovNames covariate_keys src
                    covariate_names_unique :=
                      covariate_keys.map (fun k => (k, sortedUnique (src.obs_cov k)))
                    covariates :=
                      covariate_keys.map
                        (fun k => (src.obs_cov k).map
                          (oneHotOf (sortedUnique (src.obs_cov k))))
                    ctrl := src.obs_control
                    ctrl_name :=
                      sortedUnique (((src.obs_pert.zip src.obs_control).filter
                        (fun p => decide (p.2 = 1))).map Prod.fst)
                    num_covariates :=
                      match covariate_keys with
                      | [] => [0]
                      | _ => (covariate_keys.map
                          (fun k => (k, sortedUnique (src.obs_cov k)))).map
                            (fun p => p.2.length)
                    num_genes := (src.X.getD 0 []).length
                    num_drugs := (initVocab src.obs_pert).length
                    use_drugs_idx := use_drugs_idx
                    de_genes := src.uns_degs
                    degs := degs
                    idx_all := List.range src.X.length
                    idx_control :=
                      (List.range src.X.length).filter
                        (fun i => decide (src.obs_control.getD i 0 = 1))
                    idx_treated :=
                      (List.range src.X.length).filter
                        (fun i => decide (src.obs_control.getD i 0 ≠ 1))
                    idx_train :=
                      (List.range src.X.length).filter
                        (fun i => decide (src.obs_split.getD i "" = "train"))
                    idx_test :=
                      (List.range src.X.length).filter
                        (fun i => decide (src.obs_split.getD i "" = "test"))
                    idx_ood :=
                      (List.range src.X.length).filter
                        (fun i => decide (src.obs_split.getD i "" = "ood")) }
      else .error .configurationError

/-- Lookup in the self.indices dictionary (pert_loader.py lines 190-197);
the dictionary has exactly the six keys below, any other key is a Python
KeyError and is modelled by the unused [] branch. -/
def PertDataset.indicesOf (d : PertDataset) (s : String) : List ℕ :=
  if s = "all" then d.idx_all
  else if s = "control" then d.idx_control
  else if s = "treated" then d.idx_treated
  else if s = "train" then d.idx_train
  else if s = "test" then d.idx_test
  else if s = "ood" then d.idx_ood
  else []

/-- The index list list(set(self.indices[split]) & set(self.indices[condition]))
of PertDataset.subset (line 223).  CPython set intersection enumerates in
an unspecified order; the model fixes one representative order (that of the
split list), and every theorem about subset speaks only about the
underlying index set. -/
def PertDataset.subsetIdx (d : PertDataset) (split condition : String) : List ℕ :=
  (d.indicesOf split).filter (fun i => decide (i ∈ d.indicesOf condition))

/-- drug_name_to_idx (pert_loader.py lines 226-231): lookup in the
enumeration dictionary over the sorted vocabulary. -/
def PertDataset.drug_name_to_idx (d : PertDataset) (name : String) : ℕ :=
  idxOfStr name d.drugs_names_unique_sorted

/-- The inverse dictionary self.drug_dict (line 88), mapping a drug index
back to its name. -/
def PertDataset.drug_idx_to_name (d : PertDataset) (i : ℕ) : String :=
  d.drugs_names_unique_sorted.getD i ""

/-- One observation record as returned by __getitem__: the expression row
X, the differential-expression mask X_degs, and the label mapping y
(key y_drug mapped to the (drug index, dosage) pair, and one key
"y_" ++ covariate per configured covariate). -/
structure Obs where
  X : List ℚ
  X_degs : List Bool
  y_drug : ℕ × ℚ
  y_cov : List (String × List ℚ)
  deriving DecidableEq, Repr

/-- PertDataset.__getitem__ (lines 233-239).  Modelled from the spec where
it uses the indx helper of the missing celldreamer/data/utils.py module:
all accessors index positionally through the stored columnar tensors. -/
def PertDataset.getItem (d : PertDataset) (i : ℕ) : Obs :=
  { X := d.genes.getD i []
    X_degs := d.degs.getD i []
    y_drug := (d.drugs_idx.getD i 0, d.dosages.getD i 0)
    y_cov := (d.covariate_keys.zip d.covariates).map
      (fun kc => ("y_" ++ kc.1, kc.2.getD i [])) }

def PertDataset.length (d : PertDataset) : ℕ :=
  d.genes.length

/-- The view built by SubPertDataset.__init__ (pert_loader.py
lines 250-282) in index mode (with use_drugs_idx false the source
dereferences attributes that perturbation-mode construction never sets and
crashes).  Every field is the corresponding parent field indexed through
the given index list, except degs, which the source copies whole
(line 282: self.degs = dataset.degs). -/
structure SubPertDataset where
  covariate_keys : List String
  genes : List (List ℚ)
  use_drugs_idx : Bool
  drugs_idx : List ℕ
  dosages : List ℚ
  covariates : List (List (List ℚ))
  drugs_names : List String
  pert_categories : List String
  covariate_names : List (String × List String)
  var_names : List String
  de_genes : List (String × List String)
  ctrl_name : String
  num_covariates : List ℕ
  num_genes : ℕ
  num_drugs : ℕ
  degs : List (List Bool)
  deriving DecidableEq, Repr

/-- SubPertDataset.__init__.  Modelled from the spec where it uses the indx
helper of the missing celldreamer/data/utils.py module: indx(tensor, indices)
is positional (fancy) indexing, so each field becomes the list of parent
entries at the given indices.  The degs field reproduces line 282 of the
source, which stores the parent tensor without indexing it. -/
def SubPertDataset.ofIndices (d : PertDataset) (indices : List ℕ) : SubPertDataset :=
  { covariate_keys := d.covariate_keys
    genes := indices.map (fun i => d.genes.getD i [])
    use_drugs_idx := d.use_drugs_idx
    drugs_idx := indices.map (fun i => d.drugs_idx.getD i 0)
    dosages := indices.map (fun i => d.dosages.getD i 0)
    covariates := d.covariates.map (fun cov => indices.map (fun i => cov.getD i []))
    drugs_names := indices.map (fun i => d.drugs_names.getD i "")
    pert_categories := indices.map (fun i => d.pert_categories.getD i "")
    covariate_names := d.covariate_keys.map
      (fun k => (k, indices.map
        (fun i => ((List.lookup k d.covariate_names).getD []).getD i "")))
    var_names := d.var_names
    de_genes := d.de_genes
    ctrl_name := d.ctrl_name.getD 0 ""
    num_covariates := d.num_covariates
    num_genes := d.num_genes
    num_drugs := d.num_drugs
    degs := d.degs }

/-- PertDataset.subset (lines 219-224): intersect the split and condition
index sets and wrap the result in a view. -/
def PertDataset.subset (d : PertDataset) (split condition : String) : SubPertDataset :=
  SubPertDataset.ofIndices d (d.subsetIdx split condition)

/-- SubPertDataset.__getitem__ (lines 284-291), index mode; the same
record shape as the parent accessor, read from the view's own fields. -/
def SubPertDataset.getItem (v : SubPertDataset) (i : ℕ) : Obs :=
  { X := v.genes.getD i []
    X_degs := v.degs.getD i []
    y_drug := (v.drugs_idx.getD i 0, v.dosages.getD i 0)
    y_cov := (v.covariate_keys.zip v.covariates).map
      (fun kc => ("y_" ++ kc.1, kc.2.getD i [])) }

def SubPertDataset.length (v : SubPertDataset) : ℕ :=
  v.genes.length

/-!  cfgen/data/utils.py: per-(covariate, category) size-factor statistics.  -/

/-- Row indices of the observations whose value in the given obs column is
the given category: the row selection adata[adata.obs[cov_name] == cov_cat]
of compute_size_factor_lognorm. -/
def categoryRows (obs_col : List String) (cat : String) (nrows : ℕ) : List ℕ :=
  (List.range nrows).filter (fun i => decide (obs_col.getD i "" = cat))

/-- The log size factors of one covariate category
(cfgen/data/utils.py line 55): the log of the per-row expression sum over
the selected layer, restricted to the rows of the category.  log is the
external torch primitive, passed in as a parameter. -/
def categoryLogSF (rlog : ℚ → ℚ) (layer : List (List ℚ)) (obs_col : List String)
    (cat : String) : List ℚ :=
  (categoryRows obs_col cat layer.length).map (fun i => rlog ((layer.getD i []).sum))

/-- torch.Tensor.mean: arithmetic mean, NaN on an empty tensor; the NaN is
modelled by none. -/
def listMean (xs : List ℚ) : Option ℚ :=
  if xs.length = 0 then none else some (xs.sum / xs.length)

/-- torch.Tensor.std: Bessel-corrected standard deviation, NaN on a tensor
with fewer than two entries; sqrt is the external torch primitive, passed
in as a parameter, and the NaN is modelled by none. -/
def listStd (rsqrt : ℚ → ℚ) (xs : List ℚ) : Option ℚ :=
  if xs.length ≤ 1 then none
  else some (rsqrt ((xs.map (fun x => (x - xs.sum / xs.length) ^ 2)).sum / (xs.length - 1)))

/-- compute_size_factor_lognorm (cfgen/data/utils.py lines 33-64): for
every covariate and every one of its categories, the mean and standard
deviation of the log size factors of the category's rows, returned as two
per-covariate lists in category order.  The function is total: it raises
nothing, and empty categories simply produce the NaN (none) entries of the
underlying reductions. -/
def compute_size_factor_lognorm (rlog rsqrt : ℚ → ℚ) (obs : String → List String)
    (layer : List (List ℚ)) (id2cov : List (String × List String)) :
    List (String × List (Option ℚ)) × List (String × List (Option ℚ)) :=
  (id2cov.map (fun nc =>
      (nc.1, nc.2.map (fun cat => listMean (categoryLogSF rlog layer (obs nc.1) cat)))),
   id2cov.map (fun nc =>
      (nc.1, nc.2.map (fun cat => listStd rsqrt (categoryLogSF rlog layer (obs nc.1) cat)))))

/-!  celldreamer/models/fm/denoising_model.py.  -/

/-- An affine layer.  Modelled from the spec: the Linear class lives in
celldreamer/models/fm/layer_utils.py, absent from the provided sources; per
the spec the network's projections are plain linear layers over the opaque
tensor type, so the model is an explicit weight matrix and bias vector. -/
structure LinearLayer where
  weight : List (List ℚ)
  bias : List ℚ
  deriving DecidableEq, Repr

def dotProd (r v : List ℚ) : ℚ :=
  (List.zipWith (fun a b => a * b) r v).sum

def LinearLayer.forward (L : LinearLayer) (x : List ℚ) : List ℚ :=
  (L.weight.zip L.bias).map (fun rb => dotProd rb.1 x + rb.2)

/-- zero_init (denoising_model.py lines 10-23): overwrite the module's
weights and bias with literal zeros, keeping the shapes. -/
def zero_init (L : LinearLayer) : LinearLayer :=
  { weight := L.weight.map (fun row => row.map (fun _ => (0 : ℚ)))
    bias := L.bias.map (fun _ => (0 : ℚ)) }

def zipAdd (a b : List ℚ) : List ℚ :=
  List.zipWith (fun x y => x + y) a b

/-- get_timestep_embedding (denoising_model.py lines 25-57).  sin, cos and
the logspace frequency table are external torch primitives and enter as
parameters; logspaceTable mn mx k stands for
torch.logspace(-log10 mn, -log10 mx, k), the logarithmically spaced
inverse timescales.  The function first checks the assertions (an odd
embedding_dim raises, modelled by none; the input list is one-dimensional
by type), then scales the caller's timesteps tensor in place by 1000 and
builds one row per timestep: the sine terms of the scaled timestep times
each frequency, followed by the cosine terms of the same frequencies.
The first component of the result is the post-call state of the caller's
timesteps tensor (the in-place mutation made explicit). -/
def get_timestep_embedding (rsin rcos : ℚ → ℚ) (logspaceTable : ℚ → ℚ → ℕ → List ℚ)
    (max_timescale min_timescale : ℚ) (timesteps : List ℚ) (embedding_dim : ℕ) :
    Option (List ℚ × List (List ℚ)) :=
  if embedding_dim % 2 = 0 then
    let ts := timesteps.map (fun t => t * 1000)
    let num_timescales := embedding_dim / 2
    let inv := logspaceTable min_timescale max_timescale num_timescales
    some (ts, ts.map (fun t =>
      (inv.map (fun f => rsin (t * f))) ++ (inv.map (fun f => rcos (t * f)))))
  else none

/-- A residual MLP block (denoising_model.py lines 227-322).  The SiLU
nonlinearity, the normalization layers and the dropout layer are external
torch primitives and are stored as opaque functions; the four affine
layers are explicit.  skip_proj is present exactly when the block was
built with distinct input and output widths. -/
structure ResnetBlock where
  embed_condition : Bool
  out_dim : ℕ
  norm1 : List ℚ → List ℚ
  act : ℚ → ℚ
  net1_lin : LinearLayer
  cond_proj_lin : LinearLayer
  norm2 : List ℚ → List ℚ
  dropout : List ℚ → List ℚ
  net2_lin : LinearLayer
  skip_proj : Option LinearLayer

/-- ResnetBlock.__init__ (lines 238-289): store the primitives, apply
zero_init to the final projection of net2, and create the skip projection
only when in_dim and out_dim differ.  The dropout parameter covers both
the dropout_prob > 0 layer and its absence (the identity), and the norm
parameters cover the layer/batch/none normalization choices, all external
primitives. -/
def ResnetBlock.construct (in_dim out_dim : ℕ) (embed_condition : Bool)
    (norm1 norm2 dropoutF : List ℚ → List ℚ) (act : ℚ → ℚ)
    (w1 wc w2 wskip : LinearLayer) : ResnetBlock :=
  { embed_condition := embed_condition
    out_dim := out_dim
    norm1 := norm1
    act := act
    net1_lin := w1
    cond_proj_lin := wc
    norm2 := norm2
    dropout := dropoutF
    net2_lin := zero_init w2
    skip_proj := if in_dim ≠ out_dim then some wskip else none }

/-- The skip-connection path of ResnetBlock.forward (lines 315-317): the
input itself when its width already matches out_dim, otherwise the learned
skip projection applied to it. -/
def ResnetBlock.skipPath (b : ResnetBlock) (x : List ℚ) : List ℚ :=
  if x.length ≠ b.out_dim then (b.skip_proj.getD { weight := [], bias := [] }).forward x
  else x

/-- ResnetBlock.forward (lines 291-322): first block
(norm, SiLU, linear), conditioning fusion (add the projected embedding, or
concatenate the raw one), second block (norm, SiLU, dropout, the
zero-initialized linear), then the skip connection added elementwise.  The
source asserts x.shape == h.shape before the final add; theorems carry
that shape condition as a hypothesis. -/
def ResnetBlock.forward (b : ResnetBlock) (x emb : List ℚ) : List ℚ :=
  let h1 := b.net1_lin.forward ((b.norm1 x).map b.act)
  let h2 :=
    if b.embed_condition then zipAdd h1 (b.cond_proj_lin.forward (emb.map b.act))
    else h1 ++ emb
  let h3 := b.net2_lin.forward (b.dropout ((b.norm2 h2).map b.act))
  zipAdd (b.skipPath x) h3

/-!  The observable event order of PertDataset.__init__ for claim C4.  -/

/-- The events of PertDataset.__init__ that the missing-dose_key claim
speaks about: the one-time dataset read, the ConfigurationError raise, and
a marker for the continuation of the constructor. -/
inductive InitStep where
  | readData
  | raiseConfigurationError
  | continueInit
  deriving DecidableEq, Repr

/-- The ordered read/raise events of PertDataset.__init__
(pert_loader.py lines 44-70): when the data argument is a path (not an
already-loaded AnnData) the source first reads the dataset (sc.read,
line 50), then sets attributes, and only then checks dose_key inside the
perturbation_key branch (lines 66-70), raising there when it is missing. -/
def initStepTrace (dataIsPath : Bool) (perturbation_key dose_key : Option String) :
    List InitStep :=
  (if dataIsPath then [InitStep.readData] else []) ++
    (match perturbation_key, dose_key with
     | some _, none => [InitStep.raiseConfigurationError]
     | _, _ => [InitStep.continueInit])

/-- Whether a raise happens strictly before any dataset read in an event
trace. -/
def raisesBeforeRead : List InitStep → Bool
  | [] => false
  | InitStep.readData :: _ => false
  | InitStep.raiseConfigurationError :: _ => true
  | InitStep.continueInit :: rest => raisesBeforeRead rest

/-!  Concrete inputs used by witnesses and counterexamples.  -/

/-- A two-observation source: observation 0 is treated with drugA
(differentially expressed gene g1), observation 1 is a control; one gene,
both observations in the train split. -/
def srcEx : AnnSource :=
  { X := [[1], [2]]
    var_names := ["g1"]
    obs_pert := ["drugA", "control"]
    obs_dose := ["1.0", "1.0"]
    obs_smiles := ["CCO", "CC"]
    obs_control := [0, 1]
    obs_split := ["train", "train"]
    obs_pert_category := ["A_drugA_1.0", "A_control_1.0"]
    obs_cov := fun k => if k = "cell_type" then ["A", "A"] else []
    uns_degs := [("A_drugA_1.0", ["g1"])] }

def emptyPertDataset : PertDataset :=
  { genes := []
    var_names := []
    drugs_names := []
    dose_names := []
    pert_categories := []
    drugs_names_unique_sorted := []
    canon_smiles_unique_sorted := []
    drugs_idx := []
    dosages := []
    covariate_keys := []
    covariate_names := []
    covariate_names_unique := []
    covariates := []
    ctrl := []
    ctrl_name := []
    num_covariates := []
    num_genes := 0
    num_drugs := 0
    use_drugs_idx := false
    de_genes := []
    degs := []
    idx_all := []
    idx_control := []
    idx_treated := []
    idx_train := []
    idx_test := []
    idx_ood := []}

/-- The dataset built from srcEx in index mode. -/
def dsEx : PertDataset :=
  match PertDataset.init srcEx "condition" (some "dose") ["cell_type"] true with
  | .ok d => d
  | .error _ => emptyPertDataset

/-- A source containing a combination perturbation string. -/
def srcMulti : AnnSource :=
  { X := [[1], [2]]
    var_names := ["g1"]
    obs_pert := ["drugA+drugB", "control"]
    obs_dose := ["1.0", "1.0"]
    obs_smiles := ["CCO", "CC"]
    obs_control := [0, 1]
    obs_split := ["train", "train"]
    obs_pert_category := ["A_drugA+drugB_1.0", "A_control_1.0"]
    obs_cov := fun k => if k = "cell_type" then ["A", "A"] else []
    uns_degs := [("A_drugA_1.0", ["g1"])] }

/-- A freshly constructed width-one residual block with concrete
(nonzero) raw weights and identity external primitives. -/
def bEx : ResnetBlock :=
  ResnetBlock.construct 1 1 true id id id id
    { weight := [[2]], bias := [1] }
    { weight := [[1]], bias := [0] }
    { weight := [[5]], bias := [7] }
    { weight := [[3]], bias := [0] }

/-!  Helper lemmas.  -/

theorem getD_map_lt {α β : Type} (f : α → β) (l : List α) (i : ℕ) (d : β) (d' : α)
    (h : i < l.length) : (l.map f).getD i d = f (l.getD i d') := by
  induction l generalizing i with
  | nil => simp at h
  | cons a as ih =>
    cases i with
    | zero => rfl
    | succ k => simpa using ih k (Nat.lt_of_succ_lt_succ (by simpa using h))

theorem getD_append_left {α : Type} (l l2 : List α) (i : ℕ) (d : α)
    (h : i < l.length) : (l ++ l2).getD i d = l.getD i d := by
  induction l generalizing i with
  | nil => simp at h
  | cons a as ih =>
    cases i with
    | zero => rfl
    | succ k => simpa using ih k (Nat.lt_of_succ_lt_succ (by simpa using h))

theorem getD_append_right_add {α : Type} (l l2 : List α) (j : ℕ) (d : α) :
    (l ++ l2).getD (l.length + j) d = l2.getD j d := by
  induction l with
  | nil => simp
  | cons a as ih =>
    have harith : as.length + 1 + j = (as.length + j) + 1 := by omega
    simpa [harith] using ih

theorem getD_zip_lt {α β : Type} (l : List α) (l2 : List β) (i : ℕ) (d : α) (d2 : β)
    (h1 : i < l.length) (h2 : i < l2.length) :
    (l.zip l2).getD i (d, d2) = (l.getD i d, l2.getD i d2) := by
  induction l generalizing l2 i with
  | nil => simp at h1
  | cons a as ih =>
    cases l2 with
    | nil => simp at h2
    | cons b bs =>
      cases i with
      | zero => rfl
      | succ k =>
        simpa using ih bs k (Nat.lt_of_succ_lt_succ (by simpa using h1))
          (Nat.lt_of_succ_lt_succ (by simpa using h2))

theorem getD_idxOfStr (l : List String) (a : String) (h : a ∈ l) :
    l.getD (idxOfStr a l) "" = a := by
  induction l with
  | nil => cases h
  | cons b bs ih =>
    by_cases hab : a = b
    · simp [idxOfStr, hab]
    · have hmem : a ∈ bs := by
        rcases List.mem_cons.mp h with h1 | h1
        · exact absurd h1 hab
        · exact h1
      have hstep : idxOfStr a (b :: bs) = idxOfStr a bs + 1 := by
        simp [idxOfStr, hab]
      rw [hstep, List.getD_cons_succ]
      exact ih hmem

theorem init_le_foldl_max (l : List ℕ) (a : ℕ) : a ≤ l.foldl max a := by
  induction l generalizing a with
  | nil => simp
  | cons b bs ih => exact le_trans (le_max_left a b) (ih (max a b))

theorem le_foldl_max (l : List ℕ) (a x : ℕ) (hx : x ∈ l) : x ≤ l.foldl max a := by
  induction l generalizing a with
  | nil => cases hx
  | cons b bs ih =>
    rcases List.mem_cons.mp hx with rfl | hm
    · exact le_trans (le_max_right a x) (init_le_foldl_max bs (max a x))
    · exact ih (max a b) hm

theorem mapExcept_error_eq {α β : Type} {f : α → Except PertError β} {pe : PertError}
    (hf : ∀ a e, f a = .error e → e = pe) :
    ∀ (l : List α) (e : PertError), mapExcept f l = .error e → e = pe := by
  intro l
  induction l with
  | nil => intro e h; simp [mapExcept] at h
  | cons a as ih =>
    intro e h
    unfold mapExcept at h
    cases hfa : f a with
    | error e1 =>
      rw [hfa] at h
      cases h
      exact hf a _ hfa
    | ok b =>
      rw [hfa] at h
      cases hmr : mapExcept f as with
      | error e2 =>
        rw [hmr] at h
        cases h
        exact ih _ hmr
      | ok bs => rw [hmr] at h; cases h

theorem resolveSmilesOne_error (p s : List String) (d : String) (e : PertError)
    (h : resolveSmilesOne p s d = .error e) : e = .configurationError := by
  unfold resolveSmilesOne at h
  cases hP : (((p.zip s).filter
      (fun q => (splitPlus q.1).contains d)).map Prod.snd).dedup with
  | nil => rw [hP] at h; cases h; rfl
  | cons t rest =>
    cases rest with
    | nil => rw [hP] at h; cases h
    | cons u r => rw [hP] at h; cases h; rfl

theorem resolveSmiles_error (v p s : List String) (e : PertError)
    (h : resolveSmiles v p s = .error e) : e = .configurationError := by
  unfold resolveSmiles at h
  exact mapExcept_error_eq (fun a e1 hfa => resolveSmilesOne_error p s a e1 hfa) v e h

theorem lookup_map_self {β : Type} (f : String → β) (ks : List String) (a : String) (v : β)
    (h : List.lookup a (ks.map (fun k => (k, f k))) = some v) : v = f a := by
  induction ks with
  | nil => simp [List.lookup] at h
  | cons k ks ih =>
    by_cases hak : a = k
    · subst hak
      simp [List.lookup] at h
      exact h.symm
    · have hbeq : (a == k) = false := beq_eq_false_iff_ne.mpr hak
      simp [List.lookup, hbeq] at h
      exact ih h

theorem buildDegs_ok_spec (de : List (String × List String)) (vn : List String) :
    ∀ (pairs : List (String × String)) (ms : List (List Bool)),
      buildDegs de vn pairs = .ok ms →
      ∀ i, i < pairs.length →
        degMaskFor de vn (pairs.getD i ("", "")).2 (pairs.getD i ("", "")).1 =
          .ok (ms.getD i []) := by
  intro pairs
  induction pairs with
  | nil => intro ms _ i hi; simp at hi
  | cons p rest ih =>
    obtain ⟨drug, cov⟩ := p
    intro ms h i hi
    unfold buildDegs at h
    cases hm : degMaskFor de vn cov drug with
    | error e => rw [hm] at h; cases h
    | ok m =>
      rw [hm] at h
      cases hr : buildDegs de vn rest with
      | error e => rw [hr] at h; cases h
      | ok ms2 =>
        rw [hr] at h
        cases h
        cases i with
        | zero => simpa using hm
        | succ k =>
          simpa using ih ms2 hr k (Nat.lt_of_succ_lt_succ (by simpa using hi))

theorem dot_zero (r v : List ℚ) : dotProd (r.map (fun _ => (0 : ℚ))) v = 0 := by
  induction r generalizing v with
  | nil => simp [dotProd]
  | cons a as ih =>
    cases v with
    | nil => simp [dotProd]
    | cons b bs =>
      have := ih bs
      simp [dotProd] at this ⊢
      exact this

theorem zero_init_forward (L : LinearLayer) (n : ℕ) (hw : L.weight.length = n)
    (hb : L.bias.length = n) (v : List ℚ) :
    (zero_init L).forward v = List.replicate n 0 := by
  refine List.eq_replicate_iff.mpr ⟨?_, ?_⟩
  · simp [LinearLayer.forward, zero_init, hw, hb]
  · intro q hq
    simp only [LinearLayer.forward, zero_init, List.mem_map] at hq
    obtain ⟨rb, hmem, rfl⟩ := hq
    have h1 := (List.mem_zip hmem).1
    have h2 := (List.mem_zip hmem).2
    simp only [List.mem_map] at h1 h2
    obtain ⟨r0, _, hr0⟩ := h1
    obtain ⟨b0, _, hb0⟩ := h2
    rw [← hr0, ← hb0, dot_zero]
    simp

theorem zipAdd_replicate_zero (xs : List ℚ) (n : ℕ) (h : xs.length = n) :
    zipAdd xs (List.replicate n 0) = xs := by
  induction xs generalizing n with
  | nil => simp [zipAdd]
  | cons a as ih =>
    cases n with
    | zero => simp at h
    | succ m =>
      have h2 : as.length = m := by simpa using h
      have := ih m h2
      simp [zipAdd, List.replicate_succ] at this ⊢
      exact this

theorem map_mul1000_ne (ts : List ℚ) (x : ℚ) (hx : x ∈ ts) (hx0 : x ≠ 0) :
    ts.map (fun t => t * 1000) ≠ ts := by
  induction ts with
  | nil => cases hx
  | cons a as ih =>
    rcases List.mem_cons.mp hx with rfl | hmem
    · intro h
      have h1 : x * 1000 = x := by
        simpa using congrArg (fun l => l.headD 0) h
      have h999 : x * 999 = 0 := by linarith
      rcases mul_eq_zero.mp h999 with h0 | h0
      · exact hx0 h0
      · norm_num at h0
    · intro h
      have h2 : as.map (fun t => t * 1000) = as := by
        simpa using congrArg List.tail h
      exact ih hmem h2

/-!  Claim theorems.  -/

/-- Claim C1: for every split name among train/test/ood/all and every
condition name among control/treated/all, the index set selected by
PertDataset.subset (computed as subsetIdx and handed to the view) equals
the intersection of the precomputed split index set and condition index
set; row order within the result is not part of the claim, matching the
unordered set intersection of the source. -/
theorem C1_subset_is_intersection (d : PertDataset) (split condition : String)
    (hs : split ∈ ["train", "test", "ood", "all"])
    (hc : condition ∈ ["control", "treated", "all"]) :
    (d.subsetIdx split condition).toFinset =
      (d.indicesOf split).toFinset ∩ (d.indicesOf condition).toFinset := by
  ext i
  simp [PertDataset.subsetIdx, List.mem_filter]

theorem C1_subset_is_intersection_witness :
    (dsEx.subsetIdx "train" "control").toFinset =
      (dsEx.indicesOf "train").toFinset ∩ (dsEx.indicesOf "control").toFinset :=
  C1_subset_is_intersection dsEx "train" "control" (by decide) (by decide)

/-- Claim C2 (code-bug demonstration): a View is not a pure index-based
projection of its parent.  On the two-observation dataset dsEx the view
over the valid index list [1] returns from position 0 an observation whose
differential-expression mask is the parent's row 0 mask [true] instead of
the parent's row idx[0] = 1 mask [false]: SubPertDataset.__init__ stores
the parent degs tensor whole (pert_loader.py line 282, self.degs =
dataset.degs) instead of indexing it through the index list, while the
expression tensor and the label mapping are indexed through it. -/
theorem C2_view_degs_not_reindexed :
    (SubPertDataset.ofIndices dsEx [1]).getItem 0 ≠ dsEx.getItem 1 ∧
    ((SubPertDataset.ofIndices dsEx [1]).getItem 0).X_degs = [true] ∧
    (dsEx.getItem 1).X_degs = [false] ∧
    ((SubPertDataset.ofIndices dsEx [1]).getItem 0).X = (dsEx.getItem 1).X ∧
    ((SubPertDataset.ofIndices dsEx [1]).getItem 0).y_drug = (dsEx.getItem 1).y_drug ∧
    ((SubPertDataset.ofIndices dsEx [1]).getItem 0).y_cov = (dsEx.getItem 1).y_cov :=
  ⟨fun h => absurd (congrArg Obs.X_degs h) (by decide),
   by decide, by decide, rfl, rfl, rfl⟩

/-- Claim C4 counterexample: with the data argument given as a file path,
perturbation_key set and dose_key = None, the event order of
PertDataset.__init__ is [readData, raiseConfigurationError]: the missing
dose_key error is not raised before the dataset read (sc.read at
pert_loader.py line 50 runs before the check at lines 66-70), refuting the
claim that the error precedes the dataset read. -/
theorem C4_error_after_read_counterexample :
    raisesBeforeRead (initStepTrace true (some "condition") none) = false := rfl

/-- Claim C4 amended: constructing with perturbation_key set and
dose_key = None raises ConfigurationError at construction time (the
constructor returns the error, nothing is lazily discovered), but only
after the one-time dataset read: PertDataset.init yields the
ConfigurationError and the constructor's event order places the dataset
read strictly before the raise. -/
theorem C4_error_at_construction_after_read (src : AnnSource) (pk : String)
    (covs : List String) (udi : Bool) :
    PertDataset.init src pk none covs udi = .error .configurationError ∧
    initStepTrace true (some pk) none =
      [InitStep.readData, InitStep.raiseConfigurationError] :=
  ⟨rfl, rfl⟩

/-- Claim C9: the drug name/index mappings are mutually inverse on the
vocabulary: for every name in drugs_names_unique_sorted, mapping it
through drug_name_to_idx and back through the inverse dictionary
drug_idx_to_name returns the original name. -/
theorem C9_drug_name_index_roundtrip (d : PertDataset) (name : String)
    (h : name ∈ d.drugs_names_unique_sorted) :
    d.drug_idx_to_name (d.drug_name_to_idx name) = name :=
  getD_idxOfStr d.drugs_names_unique_sorted name h

theorem C9_drug_name_index_roundtrip_witness :
    dsEx.drug_idx_to_name (dsEx.drug_name_to_idx "control") = "control" :=
  C9_drug_name_index_roundtrip dsEx "control" (by decide)

/-- Claim C10 counterexample: calling get_timestep_embedding on the
timesteps tensor [0] succeeds and the post-call state of the caller's
tensor (the first component of the result) is again [0]: the in-place
multiplication by 1000 leaves a zero tensor equal to its pre-call value,
refuting the claim that after every call the argument tensor no longer
equals its pre-call value. -/
theorem C10_zero_timesteps_unchanged_counterexample :
    (get_timestep_embedding (fun q => q) (fun q => q)
        (fun _ _ k => List.replicate k 1) 10000 1 [0] 2).map Prod.fst =
      some [(0 : ℚ)] := by
  simp [get_timestep_embedding]

/-- Claim C10 amended: get_timestep_embedding mutates its input: after
every assertion-passing call the caller's timesteps tensor has been
multiplied elementwise in place by 1000, and whenever some entry is
nonzero the tensor then no longer equals its pre-call value (so callers
must clone first, as MLPTimeStep.forward does with t.clone().detach());
tensors whose entries are all zero are fixed points of the mutation. -/
theorem C10_timesteps_scaled_in_place
    (rsin rcos : ℚ → ℚ) (tbl : ℚ → ℚ → ℕ → List ℚ) (mx mn : ℚ)
    (ts : List ℚ) (dim : ℕ) (x : ℚ)
    (hev : dim % 2 = 0) (hx : x ∈ ts) (hx0 : x ≠ 0) :
    (get_timestep_embedding rsin rcos tbl mx mn ts dim).map Prod.fst =
      some (ts.map (fun t => t * 1000)) ∧
    (get_timestep_embedding rsin rcos tbl mx mn ts dim).map Prod.fst ≠ some ts := by
  unfold get_timestep_embedding
  rw [if_pos hev]
  constructor
  · rfl
  · intro hcontra
    simp only [Option.map_some', Option.some.injEq] at hcontra
    exact map_mul1000_ne ts x hx hx0 hcontra

theorem C10_timesteps_scaled_in_place_witness :
    (get_timestep_embedding (fun q => q) (fun q => q)
        (fun _ _ k => List.replicate k 1) 10000 1 [1] 2).map Prod.fst =
      some [(1000 : ℚ)] ∧
    (get_timestep_embedding (fun q => q) (fun q => q)
        (fun _ _ k => List.replicate k 1) 10000 1 [1] 2).map Prod.fst ≠
      some [(1 : ℚ)] := by
  have h := C10_timesteps_scaled_in_place (fun q => q) (fun q => q)
    (fun _ _ k => List.replicate k 1) 10000 1 [1] 2 1 (by decide) (by decide)
    (by norm_num)
  simpa using h

/-- Claim C6 counterexample: computing size-factor statistics over a
covariate with categories A and B where category B matches zero
observations returns normally, producing the NaN (none) mean and std
entries for B (and a NaN std for the singleton category A, since torch.std
uses the Bessel correction), instead of raising a NumericError:
compute_size_factor_lognorm contains no emptiness check at all. -/
theorem C6_empty_category_nan_counterexample :
    compute_size_factor_lognorm (fun q => q) (fun q => q)
        (fun k => if k = "cov" then ["A"] else []) [[1, 2]] [("cov", ["A", "B"])] =
      ([("cov", [some 3, none])], [("cov", [none, none])]) := by
  norm_num +decide [compute_size_factor_lognorm, categoryLogSF, categoryRows, listMean,
    listStd, List.range_succ, List.filter_cons, List.filter_nil]

/-- Claim C6 amended: a covariate category with zero matching observations
yields NaN (undefined, modelled by none) mean and standard deviation
entries in the result of compute_size_factor_lognorm; the function returns
normally rather than failing fast with a NumericError. -/
theorem C6_empty_category_yields_nan
    (rlog rsqrt : ℚ → ℚ) (obs : String → List String) (layer : List (List ℚ))
    (id2cov : List (String × List String)) (k j : ℕ)
    (hk : k < id2cov.length)
    (hj : j < (id2cov.getD k ("", [])).2.length)
    (hempty : categoryRows (obs (id2cov.getD k ("", [])).1)
        ((id2cov.getD k ("", [])).2.getD j "") layer.length = []) :
    ((compute_size_factor_lognorm rlog rsqrt obs layer id2cov).1.getD k
        ("", [])).2.getD j (some 0) = none ∧
    ((compute_size_factor_lognorm rlog rsqrt obs layer id2cov).2.getD k
        ("", [])).2.getD j (some 0) = none := by
  unfold compute_size_factor_lognorm
  constructor
  · rw [getD_map_lt _ _ _ _ ("", []) hk]
    dsimp only
    rw [getD_map_lt _ _ _ _ "" hj]
    unfold categoryLogSF
    rw [hempty]
    simp [listMean]
  · rw [getD_map_lt _ _ _ _ ("", []) hk]
    dsimp only
    rw [getD_map_lt _ _ _ _ "" hj]
    unfold categoryLogSF
    rw [hempty]
    simp [listStd]

theorem C6_empty_category_yields_nan_witness :
    ((compute_size_factor_lognorm (fun q => q) (fun q => q)
        (fun k => if k = "cov" then ["A"] else []) [[1, 2]]
        [("cov", ["A", "B"])]).1.getD 0 ("", [])).2.getD 1 (some 0) = none ∧
    ((compute_size_factor_lognorm (fun q => q) (fun q => q)
        (fun k => if k = "cov" then ["A"] else []) [[1, 2]]
        [("cov", ["A", "B"])]).2.getD 0 ("", [])).2.getD 1 (some 0) = none :=
  C6_empty_category_yields_nan (fun q => q) (fun q => q)
    (fun k => if k = "cov" then ["A"] else []) [[1, 2]] [("cov", ["A", "B"])]
    0 1 (by decide) (by decide) (by decide)

/-- Claim C3: constructing the Dataset in index-based drug-encoding mode
from data in which some observation's perturbation string splits into two
or more +-joined drug names fails with a ConfigurationError: if dose_key
is missing or the structure resolution is ambiguous that error is already
a ConfigurationError, and otherwise the single-perturbation assertion of
pert_loader.py lines 100-102 fires (max_num_perturbations is at least 2). -/
theorem C3_multidrug_configuration_error (src : AnnSource) (pk : String)
    (dk : Option String) (covs : List String)
    (name : String) (hmem : name ∈ src.obs_pert)
    (hlen : 2 ≤ (splitPlus name).length) :
    PertDataset.init src pk dk covs true = .error .configurationError := by
  cases dk with
  | none => rfl
  | some dkey =>
    have hmax : maxNumPerturbations src.obs_pert ≠ 1 := by
      have hmm : (splitPlus name).length ∈
          src.obs_pert.map (fun s => (splitPlus s).length) :=
        List.mem_map_of_mem _ hmem
      have h2 : 2 ≤ maxNumPerturbations src.obs_pert :=
        le_trans hlen (le_foldl_max _ 0 _ hmm)
      omega
    simp only [PertDataset.init]
    split
    · next e heq => rw [resolveSmiles_error _ _ _ _ heq]
    · next sm heq => rw [if_neg hmax]

theorem C3_multidrug_configuration_error_witness :
    PertDataset.init srcMulti "condition" (some "dose") ["cell_type"] true =
      .error .configurationError :=
  C3_multidrug_configuration_error srcMulti "condition" (some "dose") ["cell_type"]
    "drugA+drugB" (by decide) (by decide)

/-- Claim C7: immediately after construction (no training), a residual
block's second projection outputs exactly zero for every input:
ResnetBlock.construct applies zero_init to net2's final linear layer, so
net2's output is the literal zero vector whatever its input, and the
block's forward output equals the skip-connection path exactly.  The
skipPath length hypothesis models the x.shape == h.shape assertion of the
source (denoising_model.py line 320). -/
theorem C7_zero_init_residual_identity
    (in_dim out_dim : ℕ) (ec : Bool) (n1 n2 dp : List ℚ → List ℚ) (act : ℚ → ℚ)
    (w1 wc w2 wsk : LinearLayer) (b : ResnetBlock)
    (hb : b = ResnetBlock.construct in_dim out_dim ec n1 n2 dp act w1 wc w2 wsk)
    (hw : w2.weight.length = out_dim) (hbias : w2.bias.length = out_dim)
    (v x emb : List ℚ) (hx : (b.skipPath x).length = out_dim) :
    b.net2_lin.forward v = List.replicate out_dim 0 ∧
      b.forward x emb = b.skipPath x := by
  subst hb
  have hz : ∀ u, ((ResnetBlock.construct in_dim out_dim ec n1 n2 dp act
      w1 wc w2 wsk).net2_lin).forward u = List.replicate out_dim 0 := fun u =>
    zero_init_forward w2 out_dim hw hbias u
  refine ⟨hz v, ?_⟩
  show zipAdd _ _ = _
  rw [hz]
  exact zipAdd_replicate_zero _ out_dim hx

theorem C7_zero_init_residual_identity_witness :
    bEx.net2_lin.forward [9] = List.replicate 1 0 ∧
      bEx.forward [3] [2] = bEx.skipPath [3] :=
  C7_zero_init_residual_identity 1 1 true id id id id
    { weight := [[2]], bias := [1] } { weight := [[1]], bias := [0] }
    { weight := [[5]], bias := [7] } { weight := [[3]], bias := [0] }
    bEx rfl rfl rfl [9] [3] [2] (by decide)

/-- Claim C8: sinusoidal timestep embedding: for an even embedding_dim the
call succeeds and produces one row per timestep (shape batch times
embedding_dim); within each row the first embedding_dim/2 entries are the
sine terms and the last embedding_dim/2 entries are the cosine terms of
the same frequency set, applied to the timestep pre-scaled by 1000 (for
embedding_dim 8 and a batch of 4 this is the claimed 4 by 8 layout).  The
hypothesis on the table length is the contract of torch.logspace, which
returns exactly the requested number of frequencies. -/
theorem C8_timestep_embedding_structure
    (rsin rcos : ℚ → ℚ) (tbl : ℚ → ℚ → ℕ → List ℚ) (mx mn : ℚ)
    (ts : List ℚ) (dim : ℕ) (i j : ℕ)
    (hev : dim % 2 = 0)
    (hlen : (tbl mn mx (dim / 2)).length = dim / 2)
    (hi : i < ts.length) (hj : j < dim / 2) :
    (get_timestep_embedding rsin rcos tbl mx mn ts dim).map Prod.fst =
      some (ts.map (fun t => t * 1000)) ∧
    ((get_timestep_embedding rsin rcos tbl mx mn ts dim).getD ([], [])).2.length =
      ts.length ∧
    (((get_timestep_embedding rsin rcos tbl mx mn ts dim).getD
        ([], [])).2.getD i []).length = dim ∧
    (((get_timestep_embedding rsin rcos tbl mx mn ts dim).getD
        ([], [])).2.getD i []).getD j 0 =
      rsin ((ts.getD i 0 * 1000) * (tbl mn mx (dim / 2)).getD j 0) ∧
    (((get_timestep_embedding rsin rcos tbl mx mn ts dim).getD
        ([], [])).2.getD i []).getD (dim / 2 + j) 0 =
      rcos ((ts.getD i 0 * 1000) * (tbl mn mx (dim / 2)).getD j 0) := by
  unfold get_timestep_embedding
  rw [if_pos hev]
  have hi2 : i < (ts.map (fun t => t * 1000)).length := by simpa using hi
  have hts : (ts.map (fun t => t * 1000)).getD i 0 = ts.getD i 0 * 1000 :=
    getD_map_lt _ _ _ _ 0 hi
  have h1 := getD_map_lt (fun t =>
      ((tbl mn mx (dim / 2)).map (fun f => rsin (t * f))) ++
        ((tbl mn mx (dim / 2)).map (fun f => rcos (t * f))))
    (ts.map (fun t => t * 1000)) i [] 0 hi2
  rw [hts] at h1
  have hjt : j < (tbl mn mx (dim / 2)).length := by omega
  have hjs : j < ((tbl mn mx (dim / 2)).map
      (fun f => rsin ((ts.getD i 0 * 1000) * f))).length := by simpa using hjt
  have hsl : ((tbl mn mx (dim / 2)).map
      (fun f => rsin ((ts.getD i 0 * 1000) * f))).length = dim / 2 := by
    simpa using hlen
  refine ⟨rfl, ?_, ?_, ?_, ?_⟩
  · simp only [Option.getD_some]
    simp
  · simp only [Option.getD_some]
    rw [h1]
    simp only [List.length_append, List.length_map, hlen]
    omega
  · simp only [Option.getD_some]
    rw [h1]
    rw [getD_append_left _ _ _ _ hjs]
    rw [getD_map_lt _ _ _ _ 0 hjt]
  · simp only [Option.getD_some]
    rw [h1]
    have hidx : dim / 2 + j = ((tbl mn mx (dim / 2)).map
        (fun f => rsin ((ts.getD i 0 * 1000) * f))).length + j := by rw [hsl]
    rw [hidx, getD_append_right_add]
    rw [getD_map_lt _ _ _ _ 0 hjt]

theorem C8_timestep_embedding_structure_witness :
    (get_timestep_embedding (fun q => q + 1) (fun q => q + 2)
        (fun _ _ k => List.replicate k 1) 10000 1 [0, 1, 2, 3] 8).map Prod.fst =
      some (([0, 1, 2, 3] : List ℚ).map (fun t => t * 1000)) ∧
    ((get_timestep_embedding (fun q => q + 1) (fun q => q + 2)
        (fun _ _ k => List.replicate k 1) 10000 1 [0, 1, 2, 3] 8).getD
        ([], [])).2.length = 4 ∧
    (((get_timestep_embedding (fun q => q + 1) (fun q => q + 2)
        (fun _ _ k => List.replicate k 1) 10000 1 [0, 1, 2, 3] 8).getD
        ([], [])).2.getD 1 []).length = 8 ∧
    (((get_timestep_embedding (fun q => q + 1) (fun q => q + 2)
        (fun _ _ k => List.replicate k 1) 10000 1 [0, 1, 2, 3] 8).getD
        ([], [])).2.getD 1 []).getD 2 0 = (1 : ℚ) * 1000 * 1 + 1 ∧
    (((get_timestep_embedding (fun q => q + 1) (fun q => q + 2)
        (fun _ _ k => List.replicate k 1) 10000 1 [0, 1, 2, 3] 8).getD
        ([], [])).2.getD 1 []).getD 6 0 = (1 : ℚ) * 1000 * 1 + 2 :=
  C8_timestep_embedding_structure (fun q => q + 1) (fun q => q + 2)
    (fun _ _ k => List.replicate k 1) 10000 1 [0, 1, 2, 3] 8 1 2
    (by decide) (by decide) (by decide) (by decide)

/-- Claim C5: for every observation of a successfully constructed dataset,
the differential-expression mask is the boolean vector over the fixed
var_names gene list obtained as follows: an observation whose (aliased)
perturbation name is the control name gets the all-false mask, and every
other observation's mask marks exactly the genes of the precomputed set
found in uns under the composite key covariate_drug_1.0, with the JQ1
alias applied to the drug name before the lookup (construction would have
failed with a LookupError had the key been absent, so the lookup is
some). -/
theorem C5_deg_mask_lookup (src : AnnSource) (pk : String) (dk : Option String)
    (covs : List String) (udi : Bool) (ds : PertDataset)
    (h : PertDataset.init src pk dk covs udi = .ok ds)
    (i : ℕ) (hip : i < src.obs_pert.length)
    (hic : i < (src.obs_cov "cell_type").length) :
    (aliasDrug (src.obs_pert.getD i "") = "control" →
        ds.degs.getD i [] = src.var_names.map (fun _ => false)) ∧
    (aliasDrug (src.obs_pert.getD i "") ≠ "control" →
        (List.lookup ((src.obs_cov "cell_type").getD i "" ++ "_" ++
            aliasDrug (src.obs_pert.getD i "") ++ "_1.0") src.uns_degs).isSome ∧
        ds.degs.getD i [] = src.var_names.map (fun g =>
          ((List.lookup ((src.obs_cov "cell_type").getD i "" ++ "_" ++
              aliasDrug (src.obs_pert.getD i "") ++ "_1.0")
            src.uns_degs).getD []).contains g)) := by
  cases dk with
  | none => simp [PertDataset.init] at h
  | some dkey =>
    simp only [PertDataset.init] at h
    split at h
    · simp at h
    · split at h
      · split at h
        · simp at h
        · split at h
          · simp at h
          · split at h
            · simp at h
            · next ct hct =>
              split at h
              · simp at h
              · next degs hbd =>
                injection h with h2
                subst h2
                unfold initCovNames at hct
                have hct2 : ct = src.obs_cov "cell_type" :=
                  lookup_map_self (fun k => src.obs_cov k) covs "cell_type" ct hct
                subst hct2
                have hzl : i < (src.obs_pert.zip (src.obs_cov "cell_type")).length := by
                  rw [List.length_zip]
                  omega
                have hspec := buildDegs_ok_spec src.uns_degs src.var_names _ degs hbd i hzl
                rw [getD_zip_lt _ _ _ "" "" hip hic] at hspec
                simp only [degMaskFor] at hspec
                constructor
                · intro hctrl
                  rw [if_pos hctrl] at hspec
                  injection hspec with h3
                  exact h3.symm
                · intro hnc
                  rw [if_neg hnc] at hspec
                  cases hlk : List.lookup ((src.obs_cov "cell_type").getD i "" ++ "_" ++
                      aliasDrug (src.obs_pert.getD i "") ++ "_1.0") src.uns_degs with
                  | none => rw [hlk] at hspec; cases hspec
                  | some genes =>
                    rw [hlk] at hspec
                    injection hspec with h3
                    exact ⟨rfl, h3.symm⟩
      · simp at h

theorem C5_deg_mask_lookup_witness :
    (aliasDrug (srcEx.obs_pert.getD 0 "") = "control" →
        dsEx.degs.getD 0 [] = srcEx.var_names.map (fun _ => false)) ∧
    (aliasDrug (srcEx.obs_pert.getD 0 "") ≠ "control" →
        (List.lookup ((srcEx.obs_cov "cell_type").getD 0 "" ++ "_" ++
            aliasDrug (srcEx.obs_pert.getD 0 "") ++ "_1.0") srcEx.uns_degs).isSome ∧
        dsEx.degs.getD 0 [] = srcEx.var_names.map (fun g =>
          ((List.lookup ((srcEx.obs_cov "cell_type").getD 0 "" ++ "_" ++
              aliasDrug (srcEx.obs_pert.getD 0 "") ++ "_1.0")
            srcEx.uns_degs).getD []).contains g)) :=
  C5_deg_mask_lookup srcEx "condition" (some "dose") ["cell_type"] true dsEx rfl 0
    (by decide) (by decide)
